import Mathlib

/-!
Verification of the nomcode review pipeline.

Shallow embedding of the repository sources:
  * `src/github_utils.py` — webhook signature validation and the GitHub
    App authentication helper;
  * `src/main.py` — the synchronous `/webhook` FastAPI handler and its own
    copy of the signature check;
  * `src/schemas.py` — the `CodeIssue` / `PRReview` pydantic models;
  * `src/tasks.py` — the Celery worker `_analyze_pr_async`: filtering,
    per-file fetch/analysis with isolation, aggregation, comment
    composition and the write-back call.

External effects (HMAC digests, HTTP exchanges, the analysis engine, file
fetches) are passed in as explicit function arguments, so every definition
is executable and the control flow of the Python source is preserved
exactly.
-/

/-- Python exceptions that the embedded code can raise.  `httpException`
is FastAPI HTTPException(status_code, detail); `valueError` is the
ValueError raised by unpacking `split` into two names; `httpStatusError`
is httpx HTTPStatusError from `raise_for_status`; `keyError` is a failed
dictionary lookup. -/
inductive PyError where
  | httpException (status_code : Nat) (detail : String)
  | valueError
  | httpStatusError (status_code : Nat)
  | keyError (key : String)
deriving DecidableEq

deriving instance DecidableEq for Except

/-- Python truthiness of an optional string: `None` and the empty string
are falsy, every other string is truthy. -/
def pyTruthyStr (s : Option String) : Bool :=
  match s with
  | none => false
  | some s => !(s == "")

/-- Helper for `pySplit`: walk the character list, cutting at each
separator, keeping empty pieces, exactly as Python str.split(sep) does
for a non-empty separator. -/
def pySplitAux (sep : Char) : List Char → List Char → List (List Char)
  | [], cur => [cur.reverse]
  | c :: rest, cur =>
    if c = sep then cur.reverse :: pySplitAux sep rest []
    else pySplitAux sep rest (c :: cur)

/-- Python `s.split(sep)` for a single-character separator: splits at
every occurrence and keeps empty pieces, so the result always has
(number of separators + 1) elements. -/
def pySplit (sep : Char) (s : String) : List String :=
  (pySplitAux sep s.data []).map String.mk

/-- Python `s.endswith(suffix)` for one suffix. -/
def py_endswith (s suffix : String) : Bool :=
  List.isSuffixOf suffix.data s.data

/-- Embedding of `validate_signature` from `src/github_utils.py`.

`hmacHexdigest secret payload` stands for
`hmac.new(secret.encode(), msg=payload, digestmod=hashlib.sha256).hexdigest()`;
the digest function is an explicit argument because the hash itself is a
library primitive, not repository code.  `hmac.compare_digest` is modelled
as string equality (its timing behaviour is not representable here).
The header is `Option String` because the caller passes
`request.headers.get(...)`, which may be `None`; both `None` and `""` are
falsy.  Unpacking `signature_header.split('=')` into two names raises
`ValueError` unless the split has exactly two parts. -/
def validate_signature (hmacHexdigest : String → String → String)
    (payload : String) (signature_header : Option String)
    (secret : String) : Except PyError Unit :=
  if pyTruthyStr signature_header = false then
    .error (.httpException 403 "Missing signature")
  else if secret = "" then
    .error (.httpException 500 "Webhook secret not configured")
  else
    match pySplit '=' (signature_header.getD "") with
    | [_sha_name, signature] =>
      let mac := hmacHexdigest secret payload
      if mac = signature then .ok ()
      else .error (.httpException 403 "Invalid signature")
    | _ => .error .valueError

/-- Embedding of the `validate_signature` defined in `src/main.py`
(lines 79–85): same as the `github_utils` version but reads the module
level `WEBHOOK_SECRET` (passed here as `webhook_secret`) and performs no
empty-secret check. -/
def main_validate_signature (hmacHexdigest : String → String → String)
    (payload : String) (signature_header : Option String)
    (webhook_secret : String) : Except PyError Unit :=
  if pyTruthyStr signature_header = false then
    .error (.httpException 403 "Missing signature")
  else
    match pySplit '=' (signature_header.getD "") with
    | [_sha_name, signature] =>
      if hmacHexdigest webhook_secret payload = signature then .ok ()
      else .error (.httpException 403 "Invalid signature")
    | _ => .error .valueError

/-- A concrete digest function used only to evaluate the embedded code on
closed inputs along paths whose result does not depend on the digest
value. -/
def constHmac : String → String → String := fun _ _ => ""

/-- State of `GithubAuthHelper` from `src/github_utils.py`: the
constructor stores only the application id and the private key text.
There is no token-cache field of any kind. -/
structure GithubAuthHelper where
  app_id : String
  private_key : String
deriving DecidableEq

/-- Claim set built by `generate_jwt`. -/
structure JwtClaims where
  iat : Nat
  exp : Nat
  iss : String
deriving DecidableEq

/-- Embedding of `GithubAuthHelper.generate_jwt`: issued-at is the
current time, expiry is ten minutes later, issuer is the app id; `encode`
stands for `jwt.encode(payload, key, algorithm="RS256")`. -/
def generate_jwt (encode : JwtClaims → String → String) (now : Nat)
    (h : GithubAuthHelper) : String :=
  encode ⟨now, now + 10 * 60, h.app_id⟩ h.private_key

/-- Response of the token-exchange endpoint as the code observes it: a
status code, the optional `token` field of the JSON body, and the
`expires_at` field, which the code never reads. -/
structure HttpResponse where
  status_code : Nat
  token : Option String
  expires_at : Option String
deriving DecidableEq

/-- httpx `Response.raise_for_status()`: succeeds on 2xx, raises
`HTTPStatusError` on every other status. -/
def raise_for_status (status : Nat) : Except PyError Unit :=
  if 200 ≤ status ∧ status < 300 then .ok ()
  else .error (.httpStatusError status)

/-- Embedding of `GithubAuthHelper.get_installation_token` from
`src/github_utils.py`.  `exchange` stands for the POST to the
installation access-token endpoint.  The second component of the result
counts the exchange calls the body performs: the code issues exactly one
POST unconditionally — the helper has no cache to consult, and the
response expiry is never parsed. -/
def get_installation_token (encode : JwtClaims → String → String)
    (now : Nat) (exchange : Nat → HttpResponse) (h : GithubAuthHelper)
    (installation_id : Nat) : Except PyError String × Nat :=
  let _jwt_token := generate_jwt encode now h
  let response := exchange installation_id
  let result : Except PyError String :=
    match raise_for_status response.status_code with
    | .error e => .error e
    | .ok _ =>
      match response.token with
      | some t => .ok t
      | none => .error (.keyError "token")
  (result, 1)

/-- Sequential driver: perform one `get_installation_token` request per
element of `ids`, collecting the results and the total number of
exchange calls issued.  No state flows from one request to the next
because the helper carries none. -/
def runTokenRequests (encode : JwtClaims → String → String) (now : Nat)
    (exchange : Nat → HttpResponse) (h : GithubAuthHelper)
    (ids : List Nat) : List (Except PyError String) × Nat :=
  ids.foldl
    (fun acc installation_id =>
      let r := get_installation_token encode now exchange h installation_id
      (acc.1 ++ [r.1], acc.2 + r.2))
    ([], 0)

/-- Embedding of `CodeIssue` from `src/schemas.py`: the model declares
exactly the fields `file_path`, `line_number`, `issue_type` and
`suggestion` — in particular neither `proposed_fix` nor `description`. -/
structure CodeIssue where
  file_path : String
  line_number : Int
  issue_type : String
  suggestion : String
deriving DecidableEq

/-- Embedding of `PRReview` from `src/schemas.py`. -/
structure PRReview where
  summary : String
  issues : List CodeIssue
deriving DecidableEq

/-- Python `getattr(issue, name, default)` restricted to the string-typed
attributes a `CodeIssue` instance actually carries; `none` means the
attribute does not exist, and the caller falls back to the default. -/
def CodeIssue.getattrStr (issue : CodeIssue) (name : String) : Option String :=
  if name = "file_path" then some issue.file_path
  else if name = "issue_type" then some issue.issue_type
  else if name = "suggestion" then some issue.suggestion
  else none

/-- Python `hasattr(issue, name)` over the declared fields of
`CodeIssue`. -/
def CodeIssue.hasattrField (_issue : CodeIssue) (name : String) : Bool :=
  name = "file_path" || name = "line_number" || name = "issue_type" ||
    name = "suggestion"

/-- One element of the changed-file listing as `_analyze_pr_async` reads
it: `filename`, `status`, and `patch` via `file_data.get("patch", "")`. -/
structure FileData where
  filename : String
  status : String
  patch : String
deriving DecidableEq

/-- The extension allow-list hard-coded in the filtering test of
`src/tasks.py` line 56. -/
def allowedExtensions : List String :=
  [".py", ".js", ".ts", ".tsx", ".go", ".java", ".cpp"]

/-- Python `filename.endswith((".py", ".js", ...))`: true when the name
ends with any listed suffix. -/
def endswithAllowed (filename : String) : Bool :=
  allowedExtensions.any (fun ext => py_endswith filename ext)

/-- The skip condition of the filtering step (`src/tasks.py` line 56):
`status == "removed" or not filename.endswith((...))`. -/
def skipFile (file_data : FileData) : Bool :=
  file_data.status == "removed" || !endswithAllowed file_data.filename

/-- The files the loop keeps: every file the skip condition does not
drop, in listing order. -/
def selectedFiles (files : List FileData) : List FileData :=
  files.filter (fun file_data => !skipFile file_data)

/-- The context-aware prompt built in `src/tasks.py` lines 71–92 (the
triple-quoted f-string, with its interpolations spliced in). -/
def buildPrompt (filename content patch : String) : String :=
  "\n            You are a senior code reviewer. Review the changes in this file.\n            \n            METADATA:\n            File: " ++
    filename ++
    "\n            \n            FULL FILE CONTENT:\n            ```\n            " ++
    content ++
    "\n            ```\n            \n            SPECIFIC CHANGES (DIFF):\n            ```\n            " ++
    patch ++
    "\n            ```\n            \n            INSTRUCTIONS:\n            - Analyze the changes in the context of the full file.\n            - Look for bugs, security risks, and style violations.\n            - If you find an issue that can be fixed with a code change, provide the fixed code in the \x27proposed_fix\x27 field.\n            - If the code is correct, return an empty list of issues.\n            "

/-- The fetch-then-analyze step for one file, after filtering: fetch the
full content (`get_file_content`), build the prompt, run the analysis
engine; an error at either stage is the per-file failure the loop
swallows with `continue`.  `fetch` models `get_file_content`, which is
called on the helper but not defined under `src/`.
Modelled from the spec: §4.3 `fetchContent(credential, path, commitSha)
-> text | Fail`, as an oracle from the filename (the other arguments are
fixed within one job).  `analyze` models `review_agent.run(prompt)`
returning `result.output`. -/
def perFileResult (fetch : String → Except Unit String)
    (analyze : String → Except Unit PRReview)
    (file_data : FileData) : Except Unit (List CodeIssue) :=
  match fetch file_data.filename with
  | .error _ => .error ()
  | .ok content =>
    match analyze (buildPrompt file_data.filename content file_data.patch) with
    | .error _ => .error ()
    | .ok review_data => .ok review_data.issues

/-- One iteration of the per-file loop of `_analyze_pr_async`
(`src/tasks.py` lines 49–111) acting on the accumulator
`(all_issues, files_analyzed)`: skip filtered files; on fetch failure
`continue`; on analysis failure `continue`; on success extend the issue
list when non-empty and increment `files_analyzed`. -/
def processFilesStep (fetch : String → Except Unit String)
    (analyze : String → Except Unit PRReview)
    (acc : List CodeIssue × Nat) (file_data : FileData) :
    List CodeIssue × Nat :=
  if skipFile file_data then acc
  else
    match fetch file_data.filename with
    | .error _ => acc
    | .ok content =>
      match analyze (buildPrompt file_data.filename content file_data.patch) with
      | .error _ => acc
      | .ok review_data =>
        ((if review_data.issues.isEmpty then acc.1
          else acc.1 ++ review_data.issues),
         acc.2 + 1)

/-- The whole per-file loop: fold the step over the listed files starting
from an empty issue list and a zero analysed-files count. -/
def processFiles (fetch : String → Except Unit String)
    (analyze : String → Except Unit PRReview)
    (files : List FileData) : List CodeIssue × Nat :=
  files.foldl (processFilesStep fetch analyze) ([], 0)

/-- The issues one file contributes to the accumulator. -/
def perFileIssues (fetch : String → Except Unit String)
    (analyze : String → Except Unit PRReview)
    (file_data : FileData) : List CodeIssue :=
  if skipFile file_data then []
  else
    match perFileResult fetch analyze file_data with
    | .error _ => []
    | .ok issues => issues

/-- Whether one file counts towards `files_analyzed`. -/
def perFileAnalyzed (fetch : String → Except Unit String)
    (analyze : String → Except Unit PRReview)
    (file_data : FileData) : Bool :=
  !skipFile file_data && (perFileResult fetch analyze file_data).isOk

/-- One positioned inline comment of the review payload. -/
structure InlineComment where
  path : String
  line : Int
  body : String
deriving DecidableEq

/-- The description extracted for one issue in `src/tasks.py` line 128:
`getattr(issue, "description", getattr(issue, "suggestion", "Issue found"))`. -/
def descOf (issue : CodeIssue) : String :=
  (issue.getattrStr "description").getD
    ((issue.getattrStr "suggestion").getD "Issue found")

/-- The body of one inline comment (`src/tasks.py` lines 134–139): the
bracketed category plus the description, with the fenced suggestion block
appended when `hasattr(issue, "proposed_fix") and issue.proposed_fix`
holds — i.e. when a `proposed_fix` attribute exists and is truthy. -/
def inlineBody (issue : CodeIssue) : String :=
  let comment_content := "**[" ++ issue.issue_type ++ "]** " ++ descOf issue
  match issue.getattrStr "proposed_fix" with
  | some fix =>
    if fix ≠ "" then
      comment_content ++ "\n\n```suggestion\n" ++ fix ++ "\n```"
    else comment_content
  | none => comment_content

/-- One loop iteration of the composer (`src/tasks.py` lines 125–145):
append the summary bullet to the body and the positioned inline comment
to the list. -/
def composeStep (acc : String × List InlineComment) (issue : CodeIssue) :
    String × List InlineComment :=
  (acc.1 ++ "- **" ++ issue.issue_type ++ "** in `" ++ issue.file_path ++
     "`: " ++ descOf issue ++ "\n",
   acc.2 ++ [⟨issue.file_path, issue.line_number, inlineBody issue⟩])

/-- The comment composition of `src/tasks.py` lines 120–145: the summary
header with the analysed-file and issue counts, then one bullet and one
inline comment per accumulated issue, in accumulation order. -/
def composeReview (files_analyzed : Nat) (all_issues : List CodeIssue) :
    String × List InlineComment :=
  let comment_body :=
    "## 🤖 AI Code Review\n\n" ++ "Analyzed " ++ toString files_analyzed ++
      " files. Found " ++ toString all_issues.length ++ " issues.\n\n"
  all_issues.foldl composeStep (comment_body, [])

/-- Handling of the write-back response (`src/tasks.py` lines 159–162):
a status of 400 or above is logged and swallowed — the job continues and
succeeds; any other status goes through `raise_for_status`, which only
raises outside 2xx. -/
def handleWriteBackStatus (status : Nat) : Except PyError Unit :=
  if 400 ≤ status then .ok ()
  else raise_for_status status

/-- The review payload POSTed to the destination. -/
structure WriteBackCall where
  url : String
  body : String
  event : String
  comments : List InlineComment
deriving DecidableEq

/-- Pull-request fields the worker reads from the job payload. -/
structure PrData where
  number : Nat
  title : String
  url : String
deriving DecidableEq

/-- Observable outcome of one job: the result the Celery task sees (an
error makes the task fail and become retry-eligible) and the list of
write-back calls performed. -/
structure JobOutcome where
  result : Except PyError Unit
  writebacks : List WriteBackCall
deriving DecidableEq

/-- Embedding of `_analyze_pr_async` from `src/tasks.py` (body of the
`analyze_pr_task` Celery task): obtain a token, list the changed files,
run the per-file loop, return successfully with no write-back when no
issue accumulated, otherwise compose the review and POST it once,
handling the response status as the source does.  Any raised error
re-raises through the outer handler and fails the task.
`tokenResult` is the outcome of `get_installation_token`; `filesResult`
models `get_pr_files`, which is called on the helper but not defined
under `src/`.  Modelled from the spec: §4.3 `listFiles(credential, pr)
-> ordered sequence of ChangedFile | Fail(UpstreamError)`.
`writeStatus` is the status code of the write-back response. -/
def analyze_pr (tokenResult : Except PyError String)
    (filesResult : Except PyError (List FileData))
    (fetch : String → Except Unit String)
    (analyze : String → Except Unit PRReview)
    (writeStatus : Nat) (pr : PrData) : JobOutcome :=
  match tokenResult with
  | .error e => ⟨.error e, []⟩
  | .ok _token =>
    match filesResult with
    | .error e => ⟨.error e, []⟩
    | .ok files =>
      let acc := processFiles fetch analyze files
      if acc.1.isEmpty then ⟨.ok (), []⟩
      else
        let composed := composeReview acc.2 acc.1
        let call : WriteBackCall :=
          ⟨pr.url ++ "/reviews", composed.1, "COMMENT", composed.2⟩
        ⟨handleWriteBackStatus writeStatus, [call]⟩

/-- Parsed JSON payload of the webhook request as `handle_webhook` in
`src/main.py` reads it: the `action` value, and the `pull_request` and
`installation.id` entries, `none` when the key is missing (a lookup then
raises `KeyError`). -/
structure ParsedPayload where
  action : Option String
  pull_request : Option PrData
  installation_id : Option Nat
deriving DecidableEq

/-- What the webhook caller observes: a JSON `{"status": ...}` response,
or an exception propagating out of the handler (FastAPI turns an
`HTTPException` into its status code and anything else into a 500). -/
inductive WebhookOutcome where
  | jsonResponse (status : String)
  | raised (e : PyError)
deriving DecidableEq

/-- Embedding of `handle_webhook` from `src/main.py` lines 87–168:
validate the signature on the raw bytes, parse the JSON, and for an
`opened` or `synchronize` action fetch a token and the diff, run the
agent (whose failure is caught and answered with `{"status":
"ai_failed"}`), post the review and answer `{"status": "success"}`; any
other action answers `{"status": "ignored"}`.  `parseResult`,
`tokenResult`, `diffResult`, `agentResult` and `postResult` are the
outcomes of the corresponding awaited effects; errors outside the
try/except propagate out of the handler. -/
def handle_webhook (hmacHexdigest : String → String → String)
    (webhook_secret : String) (payload_bytes : String)
    (signature_header : Option String)
    (parseResult : Except PyError ParsedPayload)
    (tokenResult : Except PyError String)
    (diffResult : Except PyError String)
    (agentResult : Except PyError PRReview)
    (postResult : Except PyError Unit) : WebhookOutcome :=
  match main_validate_signature hmacHexdigest payload_bytes signature_header
      webhook_secret with
  | .error e => .raised e
  | .ok _ =>
    match parseResult with
    | .error e => .raised e
    | .ok payload =>
      if payload.action = some "opened" ∨ payload.action = some "synchronize" then
        match payload.pull_request with
        | none => .raised (.keyError "pull_request")
        | some _pr =>
          match payload.installation_id with
          | none => .raised (.keyError "installation")
          | some _installation_id =>
            match tokenResult with
            | .error e => .raised e
            | .ok _token =>
              match diffResult with
              | .error e => .raised e
              | .ok _diff =>
                match agentResult with
                | .error _ => .jsonResponse "ai_failed"
                | .ok _review_data =>
                  match postResult with
                  | .error e => .raised e
                  | .ok _ => .jsonResponse "success"
      else .jsonResponse "ignored"

lemma processFilesStep_eq (fetch : String → Except Unit String)
    (analyze : String → Except Unit PRReview)
    (acc : List CodeIssue × Nat) (file_data : FileData) :
    processFilesStep fetch analyze acc file_data =
      if skipFile file_data then acc
      else
        match perFileResult fetch analyze file_data with
        | .error _ => acc
        | .ok issues => (acc.1 ++ issues, acc.2 + 1) := by
  unfold processFilesStep perFileResult
  by_cases h : skipFile file_data
  · simp [h]
  · simp only [h, Bool.false_eq_true, if_false]
    cases hF : fetch file_data.filename with
    | error e => simp
    | ok content =>
      dsimp only
      cases hA : analyze (buildPrompt file_data.filename content file_data.patch) with
      | error e => simp
      | ok review_data =>
        dsimp only
        by_cases hI : review_data.issues.isEmpty
        · simp [hI, List.isEmpty_iff.mp hI]
        · simp [hI]

lemma processFiles_foldl (fetch : String → Except Unit String)
    (analyze : String → Except Unit PRReview) :
    ∀ (files : List FileData) (acc : List CodeIssue × Nat),
      files.foldl (processFilesStep fetch analyze) acc =
        (acc.1 ++ files.flatMap (perFileIssues fetch analyze),
         acc.2 + files.countP (perFileAnalyzed fetch analyze)) := by
  intro files
  induction files with
  | nil => intro acc; simp
  | cons f fs ih =>
    intro acc
    rw [List.foldl_cons, processFilesStep_eq, ih]
    by_cases h : skipFile f
    · simp [perFileIssues, perFileAnalyzed, h, List.countP_cons]
    · cases hR : perFileResult fetch analyze f with
      | error e =>
        simp [perFileIssues, perFileAnalyzed, h, hR, List.countP_cons,
          Except.isOk, Except.toBool]
      | ok issues =>
        simp [perFileIssues, perFileAnalyzed, h, hR, List.countP_cons,
          Except.isOk, Except.toBool, List.append_assoc, Nat.add_assoc,
          Nat.add_comm 1]

lemma processFiles_spec (fetch : String → Except Unit String)
    (analyze : String → Except Unit PRReview) (files : List FileData) :
    processFiles fetch analyze files =
      (files.flatMap (perFileIssues fetch analyze),
       files.countP (perFileAnalyzed fetch analyze)) := by
  unfold processFiles
  rw [processFiles_foldl]
  simp

lemma foldl_composeStep (issues : List CodeIssue) :
    ∀ (body : String) (acc : List InlineComment),
      (issues.foldl composeStep (body, acc)).2 =
        acc ++ issues.map
          (fun issue => ⟨issue.file_path, issue.line_number, inlineBody issue⟩) := by
  induction issues with
  | nil => intro body acc; simp
  | cons issue rest ih =>
    intro body acc
    rw [List.foldl_cons]
    show (rest.foldl composeStep (composeStep (body, acc) issue)).2 = _
    rw [show composeStep (body, acc) issue =
      ((body, acc).1 ++ "- **" ++ issue.issue_type ++ "** in `" ++
         issue.file_path ++ "`: " ++ descOf issue ++ "\n",
       (body, acc).2 ++
         [⟨issue.file_path, issue.line_number, inlineBody issue⟩]) from rfl]
    rw [ih]
    simp

lemma composeReview_comments (files_analyzed : Nat)
    (all_issues : List CodeIssue) :
    (composeReview files_analyzed all_issues).2 =
      all_issues.map
        (fun issue => ⟨issue.file_path, issue.line_number, inlineBody issue⟩) := by
  unfold composeReview
  rw [foldl_composeStep]
  simp

lemma inlineBody_eq (issue : CodeIssue) :
    inlineBody issue = "**[" ++ issue.issue_type ++ "]** " ++ issue.suggestion := rfl

lemma skipFile_false_iff (file_data : FileData) :
    skipFile file_data = false ↔
      file_data.status ≠ "removed" ∧
        ∃ ext ∈ allowedExtensions, py_endswith file_data.filename ext = true := by
  unfold skipFile endswithAllowed
  simp [List.any_eq_true]

lemma processFiles_filter (fetch : String → Except Unit String)
    (analyze : String → Except Unit PRReview) (files : List FileData) :
    processFiles fetch analyze files =
      processFiles fetch analyze (selectedFiles files) := by
  unfold processFiles selectedFiles
  induction files with
  | nil => rfl
  | cons f fs ih =>
    by_cases h : skipFile f
    · rw [List.filter_cons_of_neg (by simp [h]), List.foldl_cons,
        processFilesStep_eq]
      simp only [h, if_true]
      exact ih
    · have h2 := ih
      rw [processFiles_foldl, processFiles_foldl] at h2
      simp only [List.nil_append, Nat.zero_add, Prod.mk.injEq] at h2
      rw [List.filter_cons_of_pos (by simp [h]), List.foldl_cons,
        List.foldl_cons, processFiles_foldl, processFiles_foldl,
        h2.1, h2.2]

/-- Counterexample for C1.  The claim says a malformed signature header
(missing scheme prefix) and an unset secret both fail with
Unauthenticated.  On the code, a header carrying a bare digest with no
`=` separator raises an uncaught `ValueError` from unpacking
`signature_header.split('=')`, and an empty secret raises
`HTTPException(500)` — neither is the 403 Unauthenticated rejection the
claim requires (the digest function is irrelevant on both paths). -/
theorem validate_signature_claim_counterexample :
    validate_signature constHmac "payload-bytes" (some "deadbeef") "topsecret" =
        .error .valueError ∧
      validate_signature constHmac "payload-bytes" (some "sha256=deadbeef") "" =
        .error (.httpException 500 "Webhook secret not configured") ∧
      PyError.valueError ≠ .httpException 403 "Invalid signature" ∧
      PyError.httpException 500 "Webhook secret not configured" ≠
        .httpException 403 "Invalid signature" := by
  refine ⟨rfl, rfl, by decide, by decide⟩

/-- Amended C1: `validate_signature` accepts exactly when the header is
truthy, the secret is non-empty, and the part of the header after its
single `=` equals the HMAC-SHA256 hex digest of the raw body under the
secret — the scheme name before the `=` is never inspected.  A missing
header and a digest mismatch fail with Unauthenticated (403); an unset
secret fails with a 500 configuration error; a header whose `=`-split
does not have exactly two parts raises an uncaught `ValueError`. -/
theorem validate_signature_characterization
    (hmacHexdigest : String → String → String) (payload : String)
    (signature_header : Option String) (secret : String) :
    (validate_signature hmacHexdigest payload signature_header secret = .ok () ↔
      pyTruthyStr signature_header = true ∧ secret ≠ "" ∧
        ∃ sha_name, pySplit '=' (signature_header.getD "") =
          [sha_name, hmacHexdigest secret payload]) ∧
    (pyTruthyStr signature_header = false →
      validate_signature hmacHexdigest payload signature_header secret =
        .error (.httpException 403 "Missing signature")) ∧
    (pyTruthyStr signature_header = true → secret = "" →
      validate_signature hmacHexdigest payload signature_header secret =
        .error (.httpException 500 "Webhook secret not configured")) ∧
    (∀ sha_name signature, pyTruthyStr signature_header = true → secret ≠ "" →
      pySplit '=' (signature_header.getD "") = [sha_name, signature] →
      signature ≠ hmacHexdigest secret payload →
      validate_signature hmacHexdigest payload signature_header secret =
        .error (.httpException 403 "Invalid signature")) ∧
    (pyTruthyStr signature_header = true → secret ≠ "" →
      (∀ a b, pySplit '=' (signature_header.getD "") ≠ [a, b]) →
      validate_signature hmacHexdigest payload signature_header secret =
        .error .valueError) := by
  unfold validate_signature
  by_cases hT : pyTruthyStr signature_header
  · by_cases hS : secret = ""
    · simp [hT, hS]
    · simp only [hT, hS, Bool.true_eq_false, if_false, if_neg hS]
      cases hSplit : pySplit '=' (signature_header.getD "") with
      | nil =>
        refine ⟨by simp, by simp [hT], by simp [hS], ?_, by simp⟩
        intro a b _ _ hab
        simp at hab
      | cons x xs =>
        cases xs with
        | nil =>
          refine ⟨by simp, by simp [hT], by simp [hS], ?_, by simp⟩
          intro a b _ _ hab
          simp at hab
        | cons y ys =>
          cases ys with
          | nil =>
            dsimp only
            by_cases hEq : hmacHexdigest secret payload = y
            · refine ⟨?_, by simp [hT], by simp [hS], ?_, ?_⟩
              · rw [if_pos hEq]
                constructor
                · intro _
                  exact ⟨by simp [hT], hS, x, by rw [hEq]⟩
                · intro _
                  rfl
              · intro a b _ _ hab hne
                simp only [List.cons.injEq, and_true] at hab
                exact absurd (by rw [← hab.2]; exact hEq.symm) hne
              · intro _ _ hno
                exact absurd rfl (hno x y)
            · refine ⟨?_, by simp [hT], by simp [hS], ?_, ?_⟩
              · rw [if_neg hEq]
                constructor
                · intro hcon
                  cases hcon
                · rintro ⟨-, -, sha_name, hsp⟩
                  simp only [List.cons.injEq, and_true] at hsp
                  exact absurd hsp.2.symm hEq
              · intro a b _ _ _ _
                rw [if_neg hEq]
              · intro _ _ hno
                exact absurd rfl (hno x y)
          | cons z zs =>
            refine ⟨by simp, by simp [hT], by simp [hS], ?_, by simp⟩
            intro a b _ _ hab
            simp at hab
  · simp [hT]

/-- Witness for C1: the characterization applied at concrete inputs — a
missing header is rejected with 403, and a well-formed header with a
wrong digest is rejected with 403. -/
theorem validate_signature_characterization_witness :
    validate_signature constHmac "payload-bytes" none "topsecret" =
        .error (.httpException 403 "Missing signature") ∧
      validate_signature constHmac "payload-bytes" (some "sha256=xyz") "topsecret" =
        .error (.httpException 403 "Invalid signature") :=
  ⟨(validate_signature_characterization constHmac "payload-bytes" none
      "topsecret").2.1 rfl,
   (validate_signature_characterization constHmac "payload-bytes"
      (some "sha256=xyz") "topsecret").2.2.2.1 "sha256" "xyz" rfl
      (by decide) rfl (by decide)⟩

/-- Counterexample for C2.  The claim says the webhook caller only ever sees
"queued", "ignored" or an unauthenticated rejection, and never a
downstream processing failure.  On the code, with a valid signature and
an `opened` action, a failing analysis run is answered synchronously with
`{"status": "ai_failed"}`, and a successful run is answered with
`{"status": "success"}` — not `{"status": "queued", "task_id": ...}`. -/
theorem handle_webhook_claim_counterexample :
    handle_webhook (fun _ _ => "d") "shiv1234" "payload-bytes"
        (some "sha256=d")
        (.ok ⟨some "opened", some ⟨7, "title", "https://u"⟩, some 2⟩)
        (.ok "token") (.ok "diff-text") (.error .valueError) (.ok ()) =
        .jsonResponse "ai_failed" ∧
      handle_webhook (fun _ _ => "d") "shiv1234" "payload-bytes"
        (some "sha256=d")
        (.ok ⟨some "opened", some ⟨7, "title", "https://u"⟩, some 2⟩)
        (.ok "token") (.ok "diff-text") (.ok ⟨"summary", []⟩) (.ok ()) =
        .jsonResponse "success" ∧
      ("ai_failed" ≠ "queued" ∧ "ai_failed" ≠ "ignored") ∧
      ("success" ≠ "queued" ∧ "success" ≠ "ignored") := by
  refine ⟨rfl, rfl, by decide, by decide⟩

/-- Amended C2: the synchronous handler answers one of
`{"status": "success"}`, `{"status": "ai_failed"}` (a downstream analysis
failure returned synchronously) or `{"status": "ignored"}`, or lets an
exception propagate (403 from the signature check, otherwise a server
error); it never answers `{"status": "queued"}` and carries no task id. -/
theorem handle_webhook_response_set
    (hmacHexdigest : String → String → String) (webhook_secret : String)
    (payload_bytes : String) (signature_header : Option String)
    (parseResult : Except PyError ParsedPayload)
    (tokenResult : Except PyError String) (diffResult : Except PyError String)
    (agentResult : Except PyError PRReview) (postResult : Except PyError Unit) :
    (handle_webhook hmacHexdigest webhook_secret payload_bytes
          signature_header parseResult tokenResult diffResult agentResult
          postResult = .jsonResponse "success" ∨
      handle_webhook hmacHexdigest webhook_secret payload_bytes
          signature_header parseResult tokenResult diffResult agentResult
          postResult = .jsonResponse "ai_failed" ∨
      handle_webhook hmacHexdigest webhook_secret payload_bytes
          signature_header parseResult tokenResult diffResult agentResult
          postResult = .jsonResponse "ignored" ∨
      ∃ e, handle_webhook hmacHexdigest webhook_secret payload_bytes
          signature_header parseResult tokenResult diffResult agentResult
          postResult = .raised e) ∧
    handle_webhook hmacHexdigest webhook_secret payload_bytes
        signature_header parseResult tokenResult diffResult agentResult
        postResult ≠ .jsonResponse "queued" := by
  unfold handle_webhook
  rcases hV : main_validate_signature hmacHexdigest payload_bytes
      signature_header webhook_secret with e | u
  · exact ⟨Or.inr (Or.inr (Or.inr ⟨e, rfl⟩)), by simp⟩
  · rcases parseResult with e | payload
    · exact ⟨Or.inr (Or.inr (Or.inr ⟨e, rfl⟩)), by simp⟩
    · dsimp only
      by_cases hA : payload.action = some "opened" ∨
          payload.action = some "synchronize"
      · rw [if_pos hA]
        rcases payload.pull_request with _ | pr
        · exact ⟨Or.inr (Or.inr (Or.inr ⟨.keyError "pull_request", rfl⟩)),
            by simp⟩
        · rcases payload.installation_id with _ | iid
          · exact ⟨Or.inr (Or.inr (Or.inr ⟨.keyError "installation", rfl⟩)),
              by simp⟩
          · rcases tokenResult with e | tok
            · exact ⟨Or.inr (Or.inr (Or.inr ⟨e, rfl⟩)), by simp⟩
            · rcases diffResult with e | diff
              · exact ⟨Or.inr (Or.inr (Or.inr ⟨e, rfl⟩)), by simp⟩
              · rcases agentResult with e | review
                · exact ⟨Or.inr (Or.inl rfl), by simp⟩
                · rcases postResult with e | u
                  · exact ⟨Or.inr (Or.inr (Or.inr ⟨e, rfl⟩)), by simp⟩
                  · exact ⟨Or.inl rfl, by simp⟩
      · rw [if_neg hA]
        exact ⟨Or.inr (Or.inr (Or.inl rfl)), by simp⟩

/-- Witness for C2: the response-set theorem applied at concrete inputs — a
request with a valid signature and an unrecognized action is never
answered with "queued". -/
theorem handle_webhook_response_set_witness :
    handle_webhook (fun _ _ => "d") "shiv1234" "payload-bytes"
        (some "sha256=d")
        (.ok ⟨some "closed", some ⟨7, "title", "https://u"⟩, some 2⟩)
        (.ok "token") (.ok "diff-text") (.ok ⟨"summary", []⟩) (.ok ()) ≠
      .jsonResponse "queued" :=
  (handle_webhook_response_set (fun _ _ => "d") "shiv1234" "payload-bytes"
      (some "sha256=d")
      (.ok ⟨some "closed", some ⟨7, "title", "https://u"⟩, some 2⟩)
      (.ok "token") (.ok "diff-text") (.ok ⟨"summary", []⟩) (.ok ())).2

/-- Concrete token-exchange oracle for the broker counterexample: every
exchange succeeds with status 201 and returns a token whose advertised
expiry is decades away (far beyond any safety margin). -/
def farFutureExchange : Nat → HttpResponse :=
  fun _ => ⟨201, some "ghs_installation_token", some "2099-01-01T00:00:00Z"⟩

/-- Counterexample for C3.  The claim says a broker already holding a cached
token whose remaining lifetime exceeds the safety margin issues no new
exchange call.  The code has no cache: the helper state holds only the
app id and the private key, so a second request for the same installation
— immediately after a successful exchange returning a token valid until
2099 — issues a second exchange call (two calls total, where the claim
allows one). -/
theorem broker_cache_counterexample :
    (runTokenRequests (fun _ _ => "jwt") 1700000000 farFutureExchange
        ⟨"2856252", "private-key-pem"⟩ [42, 42]).2 = 2 ∧
      (runTokenRequests (fun _ _ => "jwt") 1700000000 farFutureExchange
        ⟨"2856252", "private-key-pem"⟩ [42, 42]).1 =
        [.ok "ghs_installation_token", .ok "ghs_installation_token"] ∧
      (2 : Nat) ≠ 1 := by
  refine ⟨rfl, rfl, by decide⟩

/-- Amended C3: the broker maintains no cache — every
`get_installation_token` request issues exactly one exchange call,
regardless of any previously returned token or of its advertised expiry
(which the code never reads), and a run of n requests issues exactly n
exchange calls. -/
theorem get_installation_token_always_exchanges
    (encode : JwtClaims → String → String) (now : Nat)
    (exchange : Nat → HttpResponse) (h : GithubAuthHelper) :
    (∀ installation_id,
      (get_installation_token encode now exchange h installation_id).2 = 1) ∧
    ∀ ids : List Nat,
      (runTokenRequests encode now exchange h ids).2 = ids.length := by
  constructor
  · intro installation_id
    rfl
  · have hgen : ∀ (ids : List Nat) (acc : List (Except PyError String) × Nat),
        (ids.foldl
          (fun acc installation_id =>
            let r := get_installation_token encode now exchange h installation_id
            (acc.1 ++ [r.1], acc.2 + r.2)) acc).2 = acc.2 + ids.length := by
      intro ids
      induction ids with
      | nil => intro acc; simp
      | cons i is ih =>
        intro acc
        rw [List.foldl_cons, ih]
        simp [get_installation_token]
        omega
    intro ids
    unfold runTokenRequests
    rw [hgen]
    simp

/-- Witness for C3: the amended theorem applied at a concrete input — three
requests issue three exchange calls. -/
theorem get_installation_token_always_exchanges_witness :
    (runTokenRequests (fun _ _ => "jwt") 1700000000 farFutureExchange
        ⟨"2856252", "private-key-pem"⟩ [1, 2, 3]).2 = 3 :=
  (get_installation_token_always_exchanges (fun _ _ => "jwt") 1700000000
      farFutureExchange ⟨"2856252", "private-key-pem"⟩).2 [1, 2, 3]

/-- Concrete data for the worker-side theorems: one modified Python file,
a fetch oracle that succeeds, and an analysis oracle that reports one
issue. -/
def sampleFile : FileData := ⟨"app.py", "modified", "@@ -1 +1 @@"⟩

/-- Concrete issue reported by the sample analysis oracle. -/
def sampleIssue : CodeIssue := ⟨"app.py", 12, "Bug", "Fix the loop bound"⟩

/-- Fetch oracle that returns the same content for every file. -/
def okFetch : String → Except Unit String := fun _ => .ok "print(1)"

/-- Analysis oracle that reports `sampleIssue` for every prompt. -/
def oneIssueAnalyze : String → Except Unit PRReview :=
  fun _ => .ok ⟨"summary", [sampleIssue]⟩

/-- Concrete pull-request descriptor. -/
def samplePr : PrData := ⟨7, "title", "https://api.github.com/repos/o/r/pulls/7"⟩

/-- Claim C4: write-back failure handling.  The worker performs exactly one
write-back call for the job (one accumulated finding), the destination
answers 500, and the job nevertheless finishes with `.ok ()` — the error
branch only logs, and `raise_for_status` sits in the other branch, where
a 4xx/5xx status can never reach it (on 500 it would raise, as the last
conjunct shows).  The claim — a non-2xx response surfaces as a job
failure eligible for retry — is what the code plainly intended but does
not do. -/
theorem writeback_error_swallowed :
    (analyze_pr (.ok "token") (.ok [sampleFile]) okFetch oneIssueAnalyze 500
        samplePr).writebacks.length = 1 ∧
      (analyze_pr (.ok "token") (.ok [sampleFile]) okFetch oneIssueAnalyze 500
        samplePr).result = .ok () ∧
      handleWriteBackStatus 500 = .ok () ∧
      raise_for_status 500 = .error (.httpStatusError 500) := by
  refine ⟨rfl, rfl, rfl, rfl⟩

lemma analyze_pr_result_ok (tok : String) (files : List FileData)
    (fetch : String → Except Unit String)
    (analyze : String → Except Unit PRReview) (writeStatus : Nat)
    (pr : PrData) :
    (analyze_pr (.ok tok) (.ok files) fetch analyze writeStatus pr).result =
      if (processFiles fetch analyze files).1.isEmpty then .ok ()
      else handleWriteBackStatus writeStatus := by
  unfold analyze_pr
  dsimp only
  by_cases h : (processFiles fetch analyze files).1.isEmpty
  · rw [if_pos h, if_pos h]
  · rw [if_neg h, if_neg h]

/-- Claim C5: per-file failure isolation.  For a batch `l₁ ++ bad :: l₂` of
eligible files in which exactly the file `bad` fails its fetch-or-analysis
step and every other file succeeds with its own findings, the loop
records nothing for `bad`, accumulates exactly the findings of the other
files in order, counts the other files as analysed, and — when the
write-back response is handled without raising — the job finishes with
`.ok ()`. -/
theorem per_file_isolation (fetch : String → Except Unit String)
    (analyze : String → Except Unit PRReview) (l₁ l₂ : List FileData)
    (bad : FileData) (issuesOf : FileData → List CodeIssue) (tok : String)
    (writeStatus : Nat) (pr : PrData)
    (hElig : ∀ f ∈ l₁ ++ bad :: l₂, skipFile f = false)
    (hBad : perFileResult fetch analyze bad = .error ())
    (hOk : ∀ f ∈ l₁ ++ l₂, perFileResult fetch analyze f = .ok (issuesOf f))
    (hW : handleWriteBackStatus writeStatus = .ok ()) :
    processFiles fetch analyze (l₁ ++ bad :: l₂) =
        ((l₁ ++ l₂).flatMap issuesOf, l₁.length + l₂.length) ∧
      (analyze_pr (.ok tok) (.ok (l₁ ++ bad :: l₂)) fetch analyze writeStatus
        pr).result = .ok () := by
  have hIss : ∀ f ∈ l₁ ++ l₂, perFileIssues fetch analyze f = issuesOf f := by
    intro f hf
    have hskip : skipFile f = false := by
      rcases List.mem_append.mp hf with h | h
      · exact hElig f (List.mem_append.mpr (Or.inl h))
      · exact hElig f (List.mem_append.mpr (Or.inr (List.mem_cons_of_mem _ h)))
    simp [perFileIssues, hskip, hOk f hf]
  have hAn : ∀ f ∈ l₁ ++ l₂, perFileAnalyzed fetch analyze f = true := by
    intro f hf
    have hskip : skipFile f = false := by
      rcases List.mem_append.mp hf with h | h
      · exact hElig f (List.mem_append.mpr (Or.inl h))
      · exact hElig f (List.mem_append.mpr (Or.inr (List.mem_cons_of_mem _ h)))
    simp [perFileAnalyzed, hskip, hOk f hf, Except.isOk, Except.toBool]
  have hBadIss : perFileIssues fetch analyze bad = [] := by
    simp [perFileIssues, hBad]
  have hBadAn : perFileAnalyzed fetch analyze bad = false := by
    simp [perFileAnalyzed, hBad, Except.isOk, Except.toBool]
  have hfst : (l₁ ++ bad :: l₂).flatMap (perFileIssues fetch analyze) =
      (l₁ ++ l₂).flatMap issuesOf := by
    rw [List.flatMap_append, List.flatMap_cons, hBadIss, List.flatMap_append]
    simp only [List.nil_append]
    congr 1
    · exact List.flatMap_congr fun f hf =>
        hIss f (List.mem_append.mpr (Or.inl hf))
    · exact List.flatMap_congr fun f hf =>
        hIss f (List.mem_append.mpr (Or.inr hf))
  have hsnd : List.countP (perFileAnalyzed fetch analyze) (l₁ ++ bad :: l₂) =
      l₁.length + l₂.length := by
    rw [List.countP_append, List.countP_cons]
    simp only [hBadAn, cond_false]
    rw [List.countP_eq_length.mpr fun f hf =>
        hAn f (List.mem_append.mpr (Or.inl hf)),
      List.countP_eq_length.mpr fun f hf =>
        hAn f (List.mem_append.mpr (Or.inr hf))]
    simp
  have hMain : processFiles fetch analyze (l₁ ++ bad :: l₂) =
      ((l₁ ++ l₂).flatMap issuesOf, l₁.length + l₂.length) := by
    rw [processFiles_spec, hfst, hsnd]
  refine ⟨hMain, ?_⟩
  rw [analyze_pr_result_ok, hMain]
  by_cases hE : ((l₁ ++ l₂).flatMap issuesOf).isEmpty
  · rw [if_pos hE]
  · rw [if_neg hE, hW]

/-- First file of the witness batch. -/
def fileA : FileData := ⟨"a.py", "modified", "patch-a"⟩

/-- Second file of the witness batch: its content fetch fails. -/
def fileB : FileData := ⟨"b.py", "modified", "patch-b"⟩

/-- Third file of the witness batch. -/
def fileC : FileData := ⟨"c.py", "added", "patch-c"⟩

/-- Fetch oracle that fails exactly on `b.py`. -/
def failOnBFetch : String → Except Unit String :=
  fun name => if name == "b.py" then .error () else .ok "print(1)"

/-- Witness for C5: the isolation theorem applied to a concrete batch of
three eligible files whose middle fetch fails — the other two files
produce their findings and the job succeeds. -/
theorem per_file_isolation_witness :
    processFiles failOnBFetch oneIssueAnalyze [fileA, fileB, fileC] =
        ([sampleIssue, sampleIssue], 2) ∧
      (analyze_pr (.ok "token") (.ok [fileA, fileB, fileC]) failOnBFetch
        oneIssueAnalyze 200 samplePr).result = .ok () :=
  per_file_isolation failOnBFetch oneIssueAnalyze [fileA] [fileC] fileB
    (fun _ => [sampleIssue]) "token" 200 samplePr (by decide) (by decide)
    (by decide) (by decide)

/-- Claim C6: filtering.  The per-file loop acts only on the selected files —
folding over the full listing equals folding over the filtered one — and
a file is selected exactly when it appears in the listing, its status is
not "removed", and its name ends with one of the allow-listed source
extensions. -/
theorem filtering_selected_set (fetch : String → Except Unit String)
    (analyze : String → Except Unit PRReview) (files : List FileData) :
    processFiles fetch analyze files =
        processFiles fetch analyze (selectedFiles files) ∧
      ∀ f, f ∈ selectedFiles files ↔
        f ∈ files ∧ f.status ≠ "removed" ∧
          ∃ ext ∈ allowedExtensions, py_endswith f.filename ext = true := by
  refine ⟨processFiles_filter fetch analyze files, ?_⟩
  intro f
  unfold selectedFiles
  rw [List.mem_filter, Bool.not_eq_true', skipFile_false_iff]

/-- Witness for C6: the filtering theorem applied to a concrete listing — a
modified Python file is selected, while a removed Python file and a
Markdown file are not. -/
theorem filtering_selected_set_witness :
    sampleFile ∈ selectedFiles
      [sampleFile, ⟨"gone.py", "removed", ""⟩, ⟨"README.md", "modified", ""⟩] :=
  ((filtering_selected_set okFetch oneIssueAnalyze
      [sampleFile, ⟨"gone.py", "removed", ""⟩,
        ⟨"README.md", "modified", ""⟩]).2 sampleFile).mpr
    ⟨by decide, by decide, ".py", by decide, by decide⟩

/-- Claim C7: a clean result is terminal success.  When the per-file loop
accumulates no finding, the job returns
successfully and performs no write-back call at all. -/
theorem clean_result_no_writeback (tok : String) (files : List FileData)
    (fetch : String → Except Unit String)
    (analyze : String → Except Unit PRReview) (writeStatus : Nat)
    (pr : PrData)
    (hEmpty : (processFiles fetch analyze files).1 = []) :
    analyze_pr (.ok tok) (.ok files) fetch analyze writeStatus pr =
      ⟨.ok (), []⟩ := by
  unfold analyze_pr
  dsimp only
  rw [hEmpty]
  rfl

/-- Analysis oracle that reports no issue for any prompt. -/
def noIssueAnalyze : String → Except Unit PRReview :=
  fun _ => .ok ⟨"clean", []⟩

/-- Witness for C7: the clean-result theorem applied to a concrete job whose
analysis returns zero issues for its one file. -/
theorem clean_result_no_writeback_witness :
    analyze_pr (.ok "token") (.ok [sampleFile]) okFetch noIssueAnalyze 200
      samplePr = ⟨.ok (), []⟩ :=
  clean_result_no_writeback "token" [sampleFile] okFetch noIssueAnalyze 200
    samplePr (by decide)

/-- Claim C8: composition structure and order.  Each accumulated finding
becomes exactly one positioned inline comment, in accumulation order,
targeting the finding file path and line, with a body embedding the
bracketed category and the explanation; no suggestion block is ever
appended because the issue schema carries no replacement field, so the
"only when present and non-empty" condition never fires. -/
theorem compose_inline_structure (files_analyzed : Nat)
    (all_issues : List CodeIssue) :
    (composeReview files_analyzed all_issues).2 =
      all_issues.map (fun issue =>
        ⟨issue.file_path, issue.line_number,
          "**[" ++ issue.issue_type ++ "]** " ++ issue.suggestion⟩) := by
  rw [composeReview_comments]
  simp only [inlineBody_eq]

/-- Witness for C8: the structure theorem applied to a concrete two-finding
accumulation — two comments, in order, with the expected bodies. -/
theorem compose_inline_structure_witness :
    (composeReview 2 [sampleIssue, ⟨"b.py", 3, "Style", "Rename x"⟩]).2 =
      [⟨"app.py", 12, "**[Bug]** Fix the loop bound"⟩,
        ⟨"b.py", 3, "**[Style]** Rename x"⟩] :=
  compose_inline_structure 2 [sampleIssue, ⟨"b.py", 3, "Style", "Rename x"⟩]

/-- Claim C9: composition is deterministic and idempotent.  The composition of
the summary body and the inline comment list is a pure function of the
findings sequence and the analysed-files count — the embedded code reads
no clock, randomness or other state — so composing twice from identical
inputs produces byte-identical output. -/
theorem compose_deterministic (issues₁ issues₂ : List CodeIssue)
    (n₁ n₂ : Nat) (hIss : issues₁ = issues₂) (hN : n₁ = n₂) :
    composeReview n₁ issues₁ = composeReview n₂ issues₂ := by
  subst hIss
  subst hN
  rfl

/-- Witness for C9: two compositions of the same concrete findings list are
identical. -/
theorem compose_deterministic_witness :
    composeReview 1 [sampleIssue] = composeReview 1 [sampleIssue] :=
  compose_deterministic [sampleIssue] [sampleIssue] 1 1 rfl rfl

/-- Claim C10: the suggestion-block branch is unreachable and the description
fallback always resolves to `suggestion`.  A `CodeIssue` has no
`proposed_fix` attribute, so `hasattr(issue, "proposed_fix")` is false
and no composed body ever receives a fenced suggestion block; it has no
`description` attribute either, so every inline comment body is exactly
`"**[" + issue_type + "]** " + suggestion`. -/
theorem no_suggestion_block_ever :
    (∀ issue : CodeIssue,
      issue.hasattrField "proposed_fix" = false ∧
        issue.getattrStr "description" = none ∧
        inlineBody issue =
          "**[" ++ issue.issue_type ++ "]** " ++ issue.suggestion) ∧
    ∀ (files_analyzed : Nat) (all_issues : List CodeIssue),
      ((composeReview files_analyzed all_issues).2).map InlineComment.body =
        all_issues.map (fun issue =>
          "**[" ++ issue.issue_type ++ "]** " ++ issue.suggestion) := by
  constructor
  · intro issue
    exact ⟨rfl, rfl, rfl⟩
  · intro files_analyzed all_issues
    rw [composeReview_comments, List.map_map]
    rfl

/-- Witness for C10: the theorem applied to a concrete finding and a concrete
composition. -/
theorem no_suggestion_block_ever_witness :
    inlineBody sampleIssue = "**[Bug]** Fix the loop bound" ∧
      ((composeReview 1 [sampleIssue]).2).map InlineComment.body =
        ["**[Bug]** Fix the loop bound"] :=
  ⟨(no_suggestion_block_ever.1 sampleIssue).2.2,
    no_suggestion_block_ever.2 1 [sampleIssue]⟩
